import Mathlib

/-!
Verification of the verifai coordination core: a shallow embedding of the
dialogue tracker (`verifai/comms/dialogue.py`), the publish/subscribe
message bus (`uvm_ai/comms/message_bus.py`) and the orchestrator's
reactive handlers (`verifai/agents/orchestrator.py`), together with
theorems settling the stated behavioural properties.

Python dictionaries are embedded as insertion-ordered association lists
with overwrite-in-place update; Python floats carrying coverage
percentages are embedded as rationals (all comparisons in the code are
exact order comparisons); the external LLM call and the json/pydantic
parsing layer are embedded as oracle function parameters.
-/

namespace Verifai

/-! ### Association-list model of Python dict -/

/-- `d.get(k)` on an insertion-ordered dict. -/
def dictFind {κ α : Type} [DecidableEq κ] : List (κ × α) → κ → Option α
  | [], _ => none
  | (k', v) :: rest, k => if k' = k then some v else dictFind rest k

/-- `d[k] = v` on an insertion-ordered dict: overwrite in place when the
key exists, append otherwise. -/
def dictSet {κ α : Type} [DecidableEq κ] : List (κ × α) → κ → α → List (κ × α)
  | [], k, v => [(k, v)]
  | (k', v') :: rest, k, v =>
    if k' = k then (k, v) :: rest else (k', v') :: dictSet rest k v

/-- `defaultdict(list)` append: `d[k].append(v)`. -/
def dictAppend {κ α : Type} [DecidableEq κ] : List (κ × List α) → κ → α → List (κ × List α)
  | [], k, v => [(k, [v])]
  | (k', vs) :: rest, k, v =>
    if k' = k then (k', vs ++ [v]) :: rest else (k', vs) :: dictAppend rest k v

/-- Python `list.remove(x)`: drop the first occurrence of `x`. -/
def removeFirst {α : Type} [DecidableEq α] : List α → α → List α
  | [], _ => []
  | y :: rest, x => if y = x then rest else y :: removeFirst rest x

/-! ### Message model (`verifai/models/messages.py`)

Only the fields read by the embedded operations are carried; the common
`id`/`timestamp`/`priority`/`metadata` header fields and payload fields
never consulted by the embedded code are omitted. -/

/-- `PlanRequest`: orchestrator asks a sub-agent to generate a component. -/
structure PlanRequest where
  id : String
  sender : String
  recipient : String
  component_name : String
  deriving DecidableEq

/-- `PlanResponse`: sub-agent responds with proposed code. -/
structure PlanResponse where
  sender : String
  recipient : String
  correlation_id : Option String
  component_name : String
  proposed_code : String
  deriving DecidableEq

/-- `ReviewFeedback`: orchestrator review verdict for a sub-agent. -/
structure ReviewFeedback where
  sender : String
  recipient : String
  correlation_id : Option String
  component_name : String
  approved : Bool
  issues : List String
  suggestions : List String
  deriving DecidableEq

/-- `CoverageReport`: coverage status (percentages embedded as rationals). -/
structure CoverageReport where
  sender : String
  recipient : String
  overall_coverage : Rat
  coverage_bins : List (String × Rat)
  uncovered_scenarios : List String
  deriving DecidableEq

/-- `CoverageDirective`: steers the sequence agent toward coverage holes. -/
structure CoverageDirective where
  sender : String
  recipient : String
  target_bins : List String
  target_scenarios : List String
  deriving DecidableEq

/-! ### Dialogue tracker (`verifai/comms/dialogue.py`) -/

/-- `DialogueState` enum. -/
inductive DialogueState
  | PENDING
  | IN_PROGRESS
  | AWAITING_REVIEW
  | REVISION_REQUESTED
  | APPROVED
  | FAILED
  deriving DecidableEq

/-- `DialogueEntry`: tracks a single request/response dialogue. -/
structure DialogueEntry where
  correlation_id : String
  requester : String
  responder : String
  state : DialogueState
  request : Option PlanRequest
  response : Option PlanResponse
  feedback : Option ReviewFeedback
  revision_count : Nat
  max_revisions : Nat
  deriving DecidableEq

/-- `DialogueManager` state: the `_dialogues` dict and `_max_revisions`. -/
structure DialogueManager where
  dialogues : List (String × DialogueEntry)
  max_revisions : Nat
  deriving DecidableEq

/-- `DialogueManager.__init__(max_revisions)`. -/
def DialogueManager.new (max_revisions : Nat) : DialogueManager :=
  { dialogues := [], max_revisions := max_revisions }

/-- `DialogueManager.start_dialogue`: registers a new dialogue from a
`PlanRequest`, keyed by `request.id`, and returns the new entry. -/
def start_dialogue (mgr : DialogueManager) (request : PlanRequest) :
    DialogueManager × DialogueEntry :=
  let entry : DialogueEntry :=
    { correlation_id := request.id
      requester := request.sender
      responder := request.recipient
      state := DialogueState.IN_PROGRESS
      request := some request
      response := none
      feedback := none
      revision_count := 0
      max_revisions := mgr.max_revisions }
  ({ mgr with dialogues := dictSet mgr.dialogues request.id entry }, entry)

/-- `DialogueManager.record_response`: `if not cid or cid not in
self._dialogues: return None`, else store the response and move the entry
to `AWAITING_REVIEW`.  (`not cid` is true for `None` and `""`.) -/
def record_response (mgr : DialogueManager) (response : PlanResponse) :
    DialogueManager × Option DialogueEntry :=
  match response.correlation_id with
  | none => (mgr, none)
  | some cid =>
    if cid = "" then (mgr, none)
    else
      match dictFind mgr.dialogues cid with
      | none => (mgr, none)
      | some entry =>
        let entry2 := { entry with response := some response,
                                   state := DialogueState.AWAITING_REVIEW }
        ({ mgr with dialogues := dictSet mgr.dialogues cid entry2 }, some entry2)

/-- `DialogueManager.record_feedback`: approved feedback moves the entry to
`APPROVED`; otherwise `revision_count` is incremented and the entry moves to
`FAILED` when `revision_count >= max_revisions`, else `REVISION_REQUESTED`. -/
def record_feedback (mgr : DialogueManager) (feedback : ReviewFeedback) :
    DialogueManager × Option DialogueEntry :=
  match feedback.correlation_id with
  | none => (mgr, none)
  | some cid =>
    if cid = "" then (mgr, none)
    else
      match dictFind mgr.dialogues cid with
      | none => (mgr, none)
      | some entry =>
        let entry1 := { entry with feedback := some feedback }
        let entry2 :=
          if feedback.approved then
            { entry1 with state := DialogueState.APPROVED }
          else
            let rc := entry1.revision_count + 1
            if rc ≥ entry1.max_revisions then
              { entry1 with revision_count := rc, state := DialogueState.FAILED }
            else
              { entry1 with revision_count := rc,
                            state := DialogueState.REVISION_REQUESTED }
        ({ mgr with dialogues := dictSet mgr.dialogues cid entry2 }, some entry2)

/-! ### Message bus (`uvm_ai/comms/message_bus.py`)

Handlers (async callbacks) are embedded as opaque identifiers; the act of
awaiting a handler on a message is embedded through an oracle
`run : Handler → AgentMessage → Except Err Unit` giving each task's
outcome (normal return or raised exception).  Message variants are
embedded as a kind tag, and `isinstance` checks of the type-subscriber
dispatch as tag matching (with the abstract base matching every kind). -/

/-- Variant tags of the message vocabulary. -/
inductive MsgKind
  | PlanRequestK
  | PlanResponseK
  | ReviewFeedbackK
  | InterfaceContractK
  | SequenceProposalK
  | CoverageReportK
  | CoverageDirectiveK
  | CodeArtifactK
  deriving DecidableEq

/-- A message as the bus sees it: routing header plus variant tag. -/
structure AgentMessage where
  sender : String
  recipient : String
  kind : MsgKind
  deriving DecidableEq

/-- A key of the `_type_subscribers` dict: either the abstract
`AgentMessage` base (matching every message) or a concrete variant. -/
inductive TypeKey
  | anyMessage
  | ofKind (k : MsgKind)
  deriving DecidableEq

/-- `isinstance(message, msg_type)` for the embedded variant tags. -/
def isinstanceOf (message : AgentMessage) : TypeKey → Bool
  | TypeKey.anyMessage => true
  | TypeKey.ofKind k => message.kind = k

/-- Opaque identifier of a subscriber callback. -/
abbrev Handler := Nat

/-- An exception value raised by a handler. -/
abbrev Err := String

/-- `MessageBus` state: `_subscribers`, `_type_subscribers`, `_history`. -/
structure MessageBus where
  subscribers : List (String × List Handler)
  type_subscribers : List (TypeKey × List Handler)
  history : List AgentMessage
  deriving DecidableEq

/-- `MessageBus.__init__`. -/
def MessageBus.new : MessageBus :=
  { subscribers := [], type_subscribers := [], history := [] }

/-- `MessageBus.subscribe`: `self._subscribers[channel].append(callback)`. -/
def subscribe (bus : MessageBus) (channel : String) (callback : Handler) : MessageBus :=
  { bus with subscribers := dictAppend bus.subscribers channel callback }

/-- `MessageBus.subscribe_type`: `self._type_subscribers[msg_type].append(callback)`. -/
def subscribe_type (bus : MessageBus) (msg_type : TypeKey) (callback : Handler) : MessageBus :=
  { bus with type_subscribers := dictAppend bus.type_subscribers msg_type callback }

/-- `MessageBus.unsubscribe`: remove the first occurrence of `callback`
from the channel's list, if present. -/
def unsubscribe (bus : MessageBus) (channel : String) (callback : Handler) : MessageBus :=
  match dictFind bus.subscribers channel with
  | none => bus
  | some subs =>
    if callback ∈ subs then
      { bus with subscribers := dictSet bus.subscribers channel (removeFirst subs callback) }
    else bus

/-- `self._subscribers.get(channel, [])`. -/
def channel_handlers (bus : MessageBus) (channel : String) : List Handler :=
  (dictFind bus.subscribers channel).getD []

/-- The loop `for msg_type, cbs in self._type_subscribers.items(): if
isinstance(message, msg_type): ...` collecting the matching callbacks in
iteration order. -/
def type_handlers (bus : MessageBus) (message : AgentMessage) : List Handler :=
  (bus.type_subscribers.filterMap
    (fun p => if isinstanceOf message p.1 then some p.2 else none)).flatten

/-- `asyncio.gather(*tasks, return_exceptions=True/False)` over launched
tasks paired with their outcomes: with `return_exceptions` every task's
outcome (exception included) is collected and returned; without it the
first exception propagates out of the gather. -/
def gather (return_exceptions : Bool) (tasks : List (Handler × Except Err Unit)) :
    Except Err (List (Handler × Except Err Unit)) :=
  if return_exceptions then Except.ok tasks
  else
    match tasks.findSome?
      (fun t => match t.2 with | Except.error e => some e | Except.ok _ => none) with
    | some e => Except.error e
    | none => Except.ok tasks

/-- `MessageBus.publish`: append the message to history, launch one task
per channel handler of `channel` and per matching type handler, and gather
them with `return_exceptions=True`.  The result carries the new bus state
and the list of task outcomes (which the Python code discards). -/
def publish (bus : MessageBus) (channel : String) (message : AgentMessage)
    (run : Handler → AgentMessage → Except Err Unit) :
    Except Err (MessageBus × List (Handler × Except Err Unit)) := do
  let bus2 : MessageBus := { bus with history := bus.history ++ [message] }
  let tasks := (channel_handlers bus2 channel ++ type_handlers bus2 message).map
    (fun cb => (cb, run cb message))
  let results ← gather true tasks
  return (bus2, results)

/-- `MessageBus.send`: `await self.publish(message.recipient, message)`. -/
def send (bus : MessageBus) (message : AgentMessage)
    (run : Handler → AgentMessage → Except Err Unit) :
    Except Err (MessageBus × List (Handler × Except Err Unit)) :=
  publish bus message.recipient message run

/-- `MessageBus.get_history_for`. -/
def get_history_for (bus : MessageBus) (agent_name : String) : List AgentMessage :=
  bus.history.filter (fun m => m.sender == agent_name || m.recipient == agent_name)

/-- `MessageBus.clear_history`: `self._history.clear()`. -/
def clear_history (bus : MessageBus) : MessageBus :=
  { bus with history := [] }

/-! ### Orchestrator handlers (`verifai/agents/orchestrator.py`)

The LLM call (`call_llm`) and the json/pydantic parsing of its output
(`_extract_json` + model validation, both resting on external library
code) are embedded as oracle function parameters; the orchestrator's
`send_message` calls are embedded as the list of messages the handler
publishes. -/

/-- `TestbenchPlan` (`verifai/models/tb_plan.py`); the agent list and the
top-module fields are omitted (never read by the embedded handlers). -/
structure TestbenchPlan where
  name : String
  dut_name : String
  coverage_target : Rat
  description : String
  deriving DecidableEq

/-- `TestbenchPlan`'s field default for `coverage_target`. -/
def coverage_target_default : Rat := 95

/-- `DUTSpec` (`verifai/models/dut_spec.py`); ports, parameters and
protocols are omitted (never read by the embedded handlers). -/
structure DUTSpec where
  name : String
  module_name : String
  deriving DecidableEq

/-- `OrchestratorAgent.analyze_dut`: ask the LLM for a plan; on any
parse/validation failure fall back to a minimal default plan.
`parse_plan` abstracts `_extract_json` followed by
`TestbenchPlan(**plan_data)` (json decoding plus pydantic validation,
external library code); `llm_response` is the text `call_llm` returned. -/
def analyze_dut (parse_plan : String → Option TestbenchPlan)
    (dut_spec : DUTSpec) (llm_response : String) : TestbenchPlan :=
  match parse_plan llm_response with
  | some plan => plan
  | none =>
    { name := dut_spec.name ++ "_tb"
      dut_name := dut_spec.module_name
      coverage_target := coverage_target_default
      description := "Auto-generated testbench for " ++ dut_spec.name }

/-- `OrchestratorAgent._handle_coverage_report`: no action when
`overall_coverage` meets or exceeds the plan's target (95 when no plan);
otherwise send exactly one `CoverageDirective` to `sequence_agent` whose
`target_bins` are the bins strictly below 100.  Returns the list of
messages sent. -/
def handle_coverage_report (plan : Option TestbenchPlan) (self_name : String)
    (report : CoverageReport) : List CoverageDirective :=
  if report.overall_coverage ≥
      (match plan with | some p => p.coverage_target | none => (95 : Rat)) then
    []
  else
    [{ sender := self_name
       recipient := "sequence_agent"
       target_scenarios := report.uncovered_scenarios
       target_bins := (report.coverage_bins.filter
         (fun kv => decide (kv.2 < 100))).map Prod.fst }]

/-- The optional fields of the parsed review dict, read with
`review_data.get("approved", True)`, `.get("issues", [])`,
`.get("suggestions", [])`. -/
structure ReviewParse where
  approved : Option Bool
  issues : Option (List String)
  suggestions : Option (List String)

/-- `OrchestratorAgent._handle_plan_response`: record the response; when
no dialogue entry matches, drop the message (no review, nothing sent).
Otherwise review via the LLM (`llm_review` abstracts `call_llm` on the
review prompt built from the response; `parse_review` abstracts
`_extract_json` on its output, with the fallback-to-approve policy on
parse failure), record the feedback and send it.  Returns the updated
dialogue manager, whether the LLM review ran, and the messages sent. -/
def handle_plan_response (mgr : DialogueManager) (self_name : String)
    (llm_review : PlanResponse → String)
    (parse_review : String → Option ReviewParse)
    (response : PlanResponse) :
    DialogueManager × Bool × List ReviewFeedback :=
  match record_response mgr response with
  | (mgr1, none) => (mgr1, false, [])
  | (mgr1, some _) =>
    let review_text := llm_review response
    let verdict :=
      match parse_review review_text with
      | some rd => (rd.approved.getD true, rd.issues.getD [], rd.suggestions.getD [])
      | none => (true, [], [])
    let feedback : ReviewFeedback :=
      { sender := self_name
        recipient := response.sender
        correlation_id := response.correlation_id
        component_name := response.component_name
        approved := verdict.1
        issues := verdict.2.1
        suggestions := verdict.2.2 }
    let mgr2 := (record_feedback mgr1 feedback).1
    (mgr2, true, [feedback])

/-! ### Helper lemmas on the dict model -/

theorem dictFind_dictSet_self {κ α : Type} [DecidableEq κ] (d : List (κ × α)) (k : κ) (v : α) :
    dictFind (dictSet d k v) k = some v := by
  induction d with
  | nil => simp [dictSet, dictFind]
  | cons p rest ih =>
    obtain ⟨k', v'⟩ := p
    by_cases h : k' = k
    · simp [dictSet, dictFind, h]
    · simp [dictSet, dictFind, h, ih]

theorem dictFind_dictSet_ne {κ α : Type} [DecidableEq κ] (d : List (κ × α)) (k q : κ) (v : α)
    (h : q ≠ k) : dictFind (dictSet d k v) q = dictFind d q := by
  have h' : k ≠ q := fun hh => h hh.symm
  induction d with
  | nil => simp [dictSet, dictFind, h']
  | cons p rest ih =>
    obtain ⟨k', v'⟩ := p
    by_cases hk : k' = k
    · subst hk
      simp [dictSet, dictFind, h']
    · simp [dictSet, dictFind, hk, ih]

/-! ### Claims -/

/-- Claim C1: with `max_revisions = 2`, `start_dialogue` creates an
`IN_PROGRESS` entry with `revision_count = 0`; `record_response` with the
request's id moves it to `AWAITING_REVIEW`; a first rejecting
`record_feedback` moves it to `REVISION_REQUESTED` with
`revision_count = 1`; a second rejecting `record_feedback` moves it to
`FAILED` with `revision_count = 2`. -/
theorem C1_dialogue_lifecycle (req : PlanRequest) (resp : PlanResponse) (fb : ReviewFeedback)
    (hid : req.id ≠ "") (hr : resp.correlation_id = some req.id)
    (hf : fb.correlation_id = some req.id) (ha : fb.approved = false) :
    (start_dialogue (DialogueManager.new 2) req).2.state = DialogueState.IN_PROGRESS ∧
    (start_dialogue (DialogueManager.new 2) req).2.revision_count = 0 ∧
    (∃ e2, (record_response (start_dialogue (DialogueManager.new 2) req).1 resp).2 = some e2 ∧
      e2.state = DialogueState.AWAITING_REVIEW) ∧
    (∃ e3, (record_feedback
        (record_response (start_dialogue (DialogueManager.new 2) req).1 resp).1 fb).2 = some e3 ∧
      e3.state = DialogueState.REVISION_REQUESTED ∧ e3.revision_count = 1) ∧
    (∃ e4, (record_feedback (record_feedback
        (record_response (start_dialogue (DialogueManager.new 2) req).1 resp).1 fb).1 fb).2 =
        some e4 ∧
      e4.state = DialogueState.FAILED ∧ e4.revision_count = 2) := by
  simp [DialogueManager.new, start_dialogue, record_response, record_feedback, hr, hf, ha, hid,
        dictSet, dictFind]

def c1req : PlanRequest :=
  { id := "d1", sender := "orchestrator", recipient := "env_agent", component_name := "env" }

def c1resp : PlanResponse :=
  { sender := "env_agent", recipient := "orchestrator", correlation_id := some "d1",
    component_name := "env", proposed_code := "class env;" }

def c1fb : ReviewFeedback :=
  { sender := "orchestrator", recipient := "env_agent", correlation_id := some "d1",
    component_name := "env", approved := false, issues := ["wrong ports"], suggestions := [] }

/-- Witness for C1 at a concrete dialogue. -/
theorem C1_dialogue_lifecycle_witness :
    (start_dialogue (DialogueManager.new 2) c1req).2.state = DialogueState.IN_PROGRESS ∧
    (start_dialogue (DialogueManager.new 2) c1req).2.revision_count = 0 ∧
    (∃ e2, (record_response (start_dialogue (DialogueManager.new 2) c1req).1 c1resp).2 = some e2 ∧
      e2.state = DialogueState.AWAITING_REVIEW) ∧
    (∃ e3, (record_feedback
        (record_response (start_dialogue (DialogueManager.new 2) c1req).1 c1resp).1 c1fb).2 =
        some e3 ∧
      e3.state = DialogueState.REVISION_REQUESTED ∧ e3.revision_count = 1) ∧
    (∃ e4, (record_feedback (record_feedback
        (record_response (start_dialogue (DialogueManager.new 2) c1req).1 c1resp).1 c1fb).1
        c1fb).2 = some e4 ∧
      e4.state = DialogueState.FAILED ∧ e4.revision_count = 2) :=
  C1_dialogue_lifecycle c1req c1resp c1fb (by decide) rfl rfl rfl

def c2req : PlanRequest :=
  { id := "d2", sender := "orchestrator", recipient := "agent", component_name := "comp" }

def c2resp : PlanResponse :=
  { sender := "agent", recipient := "orchestrator", correlation_id := some "d2",
    component_name := "comp", proposed_code := "code" }

def c2fb : ReviewFeedback :=
  { sender := "orchestrator", recipient := "agent", correlation_id := some "d2",
    component_name := "comp", approved := false, issues := [], suggestions := [] }

/-- Claim C2 counterexample: with `max_revisions = 2`, after the dialogue
reaches the terminal state `FAILED` with `revision_count = 2`, a further
rejecting `record_feedback` is neither rejected nor a no-op: it increments
`revision_count` to `3`. -/
theorem C2_counterexample :
    ((dictFind (record_feedback (record_feedback (record_response
        (start_dialogue (DialogueManager.new 2) c2req).1 c2resp).1 c2fb).1 c2fb).1.dialogues
        "d2").map DialogueEntry.state = some DialogueState.FAILED) ∧
    ((dictFind (record_feedback (record_feedback (record_response
        (start_dialogue (DialogueManager.new 2) c2req).1 c2resp).1 c2fb).1 c2fb).1.dialogues
        "d2").map DialogueEntry.revision_count = some 2) ∧
    (((record_feedback (record_feedback (record_feedback (record_response
        (start_dialogue (DialogueManager.new 2) c2req).1 c2resp).1 c2fb).1 c2fb).1 c2fb).2).map
        DialogueEntry.revision_count = some 3) := by
  decide

/-- Claim C2 amended: terminal entries are not immutable.  For a tracked
entry in state `FAILED` whose `revision_count` has reached `max_revisions`,
a further rejecting `record_feedback` increments `revision_count` by one
(the state stays `FAILED` only because the count stays at or above the
limit), and a further `record_response` moves the entry back to
`AWAITING_REVIEW`. -/
theorem C2_terminal_entries_mutate (mgr : DialogueManager) (cid : String)
    (entry : DialogueEntry) (fb : ReviewFeedback) (resp : PlanResponse)
    (hcid : cid ≠ "") (hfind : dictFind mgr.dialogues cid = some entry)
    (_hstate : entry.state = DialogueState.FAILED)
    (hfb : fb.correlation_id = some cid) (happ : fb.approved = false)
    (hmax : entry.max_revisions ≤ entry.revision_count)
    (hresp : resp.correlation_id = some cid) :
    (∃ e, (record_feedback mgr fb).2 = some e ∧
       e.state = DialogueState.FAILED ∧
       e.revision_count = entry.revision_count + 1) ∧
    (∃ e, (record_response mgr resp).2 = some e ∧
       e.state = DialogueState.AWAITING_REVIEW) := by
  have hmax1 : entry.max_revisions ≤ entry.revision_count + 1 := Nat.le_succ_of_le hmax
  constructor
  · simp [record_feedback, hfb, hcid, hfind, happ, hmax1]
  · simp [record_response, hresp, hcid, hfind]

def c2entry : DialogueEntry :=
  { correlation_id := "d2", requester := "orchestrator", responder := "agent",
    state := DialogueState.FAILED, request := none, response := none, feedback := none,
    revision_count := 2, max_revisions := 2 }

def c2mgr : DialogueManager :=
  { dialogues := [("d2", c2entry)], max_revisions := 2 }

/-- Witness for the amended C2 at a concrete FAILED entry. -/
theorem C2_terminal_entries_mutate_witness :
    (∃ e, (record_feedback c2mgr c2fb).2 = some e ∧
       e.state = DialogueState.FAILED ∧
       e.revision_count = c2entry.revision_count + 1) ∧
    (∃ e, (record_response c2mgr c2resp).2 = some e ∧
       e.state = DialogueState.AWAITING_REVIEW) :=
  C2_terminal_entries_mutate c2mgr "d2" c2entry c2fb c2resp (by decide) (by decide) rfl rfl rfl
    (by decide) rfl

def c3req : PlanRequest :=
  { id := "d3", sender := "orchestrator", recipient := "agent", component_name := "comp" }

def c3resp : PlanResponse :=
  { sender := "agent", recipient := "orchestrator", correlation_id := some "d3",
    component_name := "comp", proposed_code := "code" }

/-- Claim C3 counterexample: calling `start_dialogue` for an id already
tracked does not leave the previous entry in place unchanged: an entry in
`AWAITING_REVIEW` holding a response is replaced by a fresh `IN_PROGRESS`
entry with no response, and the fresh entry is returned. -/
theorem C3_counterexample :
    ((dictFind (record_response (start_dialogue (DialogueManager.new 3) c3req).1
        c3resp).1.dialogues "d3").map DialogueEntry.state =
      some DialogueState.AWAITING_REVIEW) ∧
    ((dictFind (start_dialogue (record_response (start_dialogue (DialogueManager.new 3) c3req).1
        c3resp).1 c3req).1.dialogues "d3").map DialogueEntry.state =
      some DialogueState.IN_PROGRESS) ∧
    ((dictFind (start_dialogue (record_response (start_dialogue (DialogueManager.new 3) c3req).1
        c3resp).1 c3req).1.dialogues "d3").map DialogueEntry.response = some none) ∧
    (start_dialogue (record_response (start_dialogue (DialogueManager.new 3) c3req).1
        c3resp).1 c3req).2.state = DialogueState.IN_PROGRESS := by
  decide

/-- Claim C3 amended: `start_dialogue` on an already-tracked id does not
fail silently; it replaces the tracked entry with a fresh `IN_PROGRESS`
entry (no response, no feedback, `revision_count = 0`) and returns that
entry; entries under every other id are unchanged. -/
theorem C3_restart_replaces (mgr : DialogueManager) (req : PlanRequest) :
    (start_dialogue mgr req).2.state = DialogueState.IN_PROGRESS ∧
    (start_dialogue mgr req).2.revision_count = 0 ∧
    (start_dialogue mgr req).2.response = none ∧
    (start_dialogue mgr req).2.feedback = none ∧
    dictFind (start_dialogue mgr req).1.dialogues req.id = some (start_dialogue mgr req).2 ∧
    ∀ k, k ≠ req.id → dictFind (start_dialogue mgr req).1.dialogues k = dictFind mgr.dialogues k := by
  refine ⟨rfl, rfl, rfl, rfl, ?_, ?_⟩
  · exact dictFind_dictSet_self mgr.dialogues req.id _
  · intro k hk
    exact dictFind_dictSet_ne mgr.dialogues req.id k _ hk

def c3entry : DialogueEntry :=
  { correlation_id := "d3", requester := "orchestrator", responder := "agent",
    state := DialogueState.AWAITING_REVIEW, request := none, response := some c3resp,
    feedback := none, revision_count := 0, max_revisions := 3 }

def c3other : DialogueEntry :=
  { correlation_id := "other", requester := "orchestrator", responder := "agent2",
    state := DialogueState.IN_PROGRESS, request := none, response := none,
    feedback := none, revision_count := 0, max_revisions := 3 }

def c3mgr : DialogueManager :=
  { dialogues := [("d3", c3entry), ("other", c3other)], max_revisions := 3 }

/-- Witness for the amended C3 at a concrete manager already tracking the id. -/
theorem C3_restart_replaces_witness :
    (start_dialogue c3mgr c3req).2.state = DialogueState.IN_PROGRESS ∧
    dictFind (start_dialogue c3mgr c3req).1.dialogues "d3" = some (start_dialogue c3mgr c3req).2 ∧
    dictFind (start_dialogue c3mgr c3req).1.dialogues "other" = dictFind c3mgr.dialogues "other" := by
  obtain ⟨h1, _, _, _, h5, h6⟩ := C3_restart_replaces c3mgr c3req
  exact ⟨h1, h5, h6 "other" (by decide)⟩

/-- Claim C6: a `PlanResponse` or `ReviewFeedback` whose `correlation_id`
is `None` or untracked is dropped: `record_response`/`record_feedback`
return no entry and leave the manager unchanged, and the orchestrator's
plan-response handler runs no review and publishes nothing. -/
theorem C6_routing_miss (mgr : DialogueManager) (resp : PlanResponse) (fb : ReviewFeedback)
    (self_name : String) (llm_review : PlanResponse → String)
    (rparse : String → Option ReviewParse)
    (hr : resp.correlation_id = none ∨
      ∀ s, resp.correlation_id = some s → dictFind mgr.dialogues s = none)
    (hf : fb.correlation_id = none ∨
      ∀ s, fb.correlation_id = some s → dictFind mgr.dialogues s = none) :
    record_response mgr resp = (mgr, none) ∧
    record_feedback mgr fb = (mgr, none) ∧
    handle_plan_response mgr self_name llm_review rparse resp = (mgr, false, []) := by
  have hresp : record_response mgr resp = (mgr, none) := by
    rcases hr with h | h
    · simp [record_response, h]
    · cases hcid : resp.correlation_id with
      | none => simp [record_response, hcid]
      | some s =>
        by_cases hs : s = ""
        · simp [record_response, hcid, hs]
        · simp [record_response, hcid, hs, h s hcid]
  have hfbk : record_feedback mgr fb = (mgr, none) := by
    rcases hf with h | h
    · simp [record_feedback, h]
    · cases hcid : fb.correlation_id with
      | none => simp [record_feedback, hcid]
      | some s =>
        by_cases hs : s = ""
        · simp [record_feedback, hcid, hs]
        · simp [record_feedback, hcid, hs, h s hcid]
  refine ⟨hresp, hfbk, ?_⟩
  simp [handle_plan_response, hresp]

def c6resp : PlanResponse :=
  { sender := "agent", recipient := "orchestrator", correlation_id := none,
    component_name := "comp", proposed_code := "code" }

def c6fb : ReviewFeedback :=
  { sender := "orchestrator", recipient := "agent", correlation_id := some "unknown",
    component_name := "comp", approved := false, issues := [], suggestions := [] }

/-- Witness for C6: a response with no correlation id and feedback with an
untracked one, against an empty manager. -/
theorem C6_routing_miss_witness :
    record_response (DialogueManager.new 3) c6resp = (DialogueManager.new 3, none) ∧
    record_feedback (DialogueManager.new 3) c6fb = (DialogueManager.new 3, none) ∧
    handle_plan_response (DialogueManager.new 3) "orchestrator" (fun _ => "review")
      (fun _ => none) c6resp = (DialogueManager.new 3, false, []) :=
  C6_routing_miss (DialogueManager.new 3) c6resp c6fb "orchestrator" (fun _ => "review")
    (fun _ => none) (Or.inl rfl) (Or.inr (fun _ _ => rfl))

/-- Claim C7: when the generation collaborator's output fails to parse as
plan data, `analyze_dut` does not propagate the error: it returns a plan
whose name is the DUT spec's name suffixed with `_tb` and whose
`dut_name` is the spec's module name. -/
theorem C7_plan_fallback (parse_plan : String → Option TestbenchPlan) (dut : DUTSpec)
    (llm_response : String) (hparse : parse_plan llm_response = none) :
    (analyze_dut parse_plan dut llm_response).name = dut.name ++ "_tb" ∧
    (analyze_dut parse_plan dut llm_response).dut_name = dut.module_name := by
  simp [analyze_dut, hparse]

def c7dut : DUTSpec := { name := "alu", module_name := "alu_core" }

/-- Witness for C7: an always-failing parse on a concrete DUT spec. -/
theorem C7_plan_fallback_witness :
    (analyze_dut (fun _ => none) c7dut "not json").name = "alu" ++ "_tb" ∧
    (analyze_dut (fun _ => none) c7dut "not json").dut_name = "alu_core" :=
  C7_plan_fallback (fun _ => none) c7dut "not json" rfl

/-- Claim C4: a coverage report strictly below the plan's target yields
exactly one published `CoverageDirective`, addressed to `sequence_agent`,
whose `target_bins` are exactly the bins strictly below 100; a report
meeting or exceeding the target yields no message. -/
theorem C4_coverage_closure (plan : TestbenchPlan) (self_name : String)
    (report : CoverageReport) :
    (report.overall_coverage < plan.coverage_target →
      ∃ d, handle_coverage_report (some plan) self_name report = [d] ∧
        d.recipient = "sequence_agent" ∧
        d.target_scenarios = report.uncovered_scenarios ∧
        ∀ b, b ∈ d.target_bins ↔ ∃ v, (b, v) ∈ report.coverage_bins ∧ v < 100) ∧
    (plan.coverage_target ≤ report.overall_coverage →
      handle_coverage_report (some plan) self_name report = []) := by
  constructor
  · intro hlt
    have hnot : ¬ report.overall_coverage ≥ plan.coverage_target := not_le.mpr hlt
    simp only [handle_coverage_report, if_neg hnot]
    refine ⟨_, rfl, rfl, rfl, ?_⟩
    intro b
    simp only [List.mem_map, List.mem_filter, decide_eq_true_eq]
    constructor
    · rintro ⟨⟨k, v⟩, ⟨hmem, hv⟩, rfl⟩
      exact ⟨v, hmem, hv⟩
    · rintro ⟨v, hmem, hv⟩
      exact ⟨(b, v), ⟨hmem, hv⟩, rfl⟩
  · intro hge
    simp only [handle_coverage_report, if_pos hge]

def c4plan : TestbenchPlan :=
  { name := "alu_tb", dut_name := "alu", coverage_target := 95, description := "" }

def c4report : CoverageReport :=
  { sender := "scoreboard_agent", recipient := "orchestrator",
    overall_coverage := 73.5,
    coverage_bins := [("op_add", 100), ("op_sub", 80), ("overflow", 0)],
    uncovered_scenarios := ["burst_write"] }

def c4reportHigh : CoverageReport :=
  { sender := "scoreboard_agent", recipient := "orchestrator",
    overall_coverage := 96,
    coverage_bins := [("op_add", 100)],
    uncovered_scenarios := [] }

/-- Witness for C4: the spec's concrete scenario (73.5 against a target of
95 with bins op_add 100, op_sub 80, overflow 0) and a passing report. -/
theorem C4_coverage_closure_witness :
    (∃ d, handle_coverage_report (some c4plan) "orchestrator" c4report = [d] ∧
        d.recipient = "sequence_agent" ∧
        d.target_scenarios = c4report.uncovered_scenarios ∧
        ∀ b, b ∈ d.target_bins ↔ ∃ v, (b, v) ∈ c4report.coverage_bins ∧ v < 100) ∧
    handle_coverage_report (some c4plan) "orchestrator" c4reportHigh = [] :=
  ⟨(C4_coverage_closure c4plan "orchestrator" c4report).1 (by norm_num [c4report, c4plan]),
   (C4_coverage_closure c4plan "orchestrator" c4reportHigh).2
     (by norm_num [c4reportHigh, c4plan])⟩

/-! ### Bus theorems -/

/-- `publish` always returns normally: the history is extended by the
message and every channel handler of the channel and matching type handler
is launched, with outcomes collected by the gather. -/
theorem publish_eq (bus : MessageBus) (channel : String) (message : AgentMessage)
    (run : Handler → AgentMessage → Except Err Unit) :
    publish bus channel message run =
      Except.ok ({ bus with history := bus.history ++ [message] },
        (channel_handlers bus channel ++ type_handlers bus message).map
          (fun cb => (cb, run cb message))) := rfl

/-- Claim C5: a handler raising during `publish` is isolated: the publish
call itself returns normally, the message is still appended to history,
and every subscribed handler is still invoked once with the message. -/
theorem C5_handler_isolation (bus : MessageBus) (channel : String) (message : AgentMessage)
    (run : Handler → AgentMessage → Except Err Unit) (h0 : Handler) (e : Err)
    (_hmem : h0 ∈ channel_handlers bus channel ++ type_handlers bus message)
    (_herr : run h0 message = Except.error e) :
    ∃ bus2 results, publish bus channel message run = Except.ok (bus2, results) ∧
      bus2.history = bus.history ++ [message] ∧
      results = (channel_handlers bus channel ++ type_handlers bus message).map
        (fun cb => (cb, run cb message)) ∧
      ∀ h, h ∈ channel_handlers bus channel ++ type_handlers bus message →
        (h, run h message) ∈ results := by
  refine ⟨_, _, publish_eq bus channel message run, rfl, rfl, ?_⟩
  intro h hh
  exact List.mem_map.mpr ⟨h, hh, rfl⟩

def c5bus : MessageBus := subscribe (subscribe MessageBus.new "reviewer" 1) "reviewer" 2

def c5msg : AgentMessage :=
  { sender := "agent", recipient := "reviewer", kind := MsgKind.PlanResponseK }

def c5run : Handler → AgentMessage → Except Err Unit :=
  fun h _ => if h = 1 then Except.error "boom" else Except.ok ()

/-- Witness for C5: two handlers on one channel, the first raising. -/
theorem C5_handler_isolation_witness :
    ∃ bus2 results, publish c5bus "reviewer" c5msg c5run = Except.ok (bus2, results) ∧
      bus2.history = c5bus.history ++ [c5msg] ∧
      results = (channel_handlers c5bus "reviewer" ++ type_handlers c5bus c5msg).map
        (fun cb => (cb, c5run cb c5msg)) ∧
      ∀ h, h ∈ channel_handlers c5bus "reviewer" ++ type_handlers c5bus c5msg →
        (h, c5run h c5msg) ∈ results :=
  C5_handler_isolation c5bus "reviewer" c5msg c5run 1 "boom" (by decide) rfl

/-- Claim C8: `send` equals `publish` on the recipient's channel, and the
handlers it invokes are drawn only from the recipient channel's subscriber
list (plus type subscribers): a handler subscribed only to other channels
receives nothing. -/
theorem C8_send_routing (bus : MessageBus) (message : AgentMessage)
    (run : Handler → AgentMessage → Except Err Unit) :
    send bus message run = publish bus message.recipient message run ∧
    ∃ bus2 results, send bus message run = Except.ok (bus2, results) ∧
      results = (channel_handlers bus message.recipient ++ type_handlers bus message).map
        (fun cb => (cb, run cb message)) ∧
      ∀ h, h ∉ channel_handlers bus message.recipient → h ∉ type_handlers bus message →
        ∀ r, (h, r) ∉ results := by
  refine ⟨rfl, _, _, publish_eq bus message.recipient message run, rfl, ?_⟩
  intro h hch hty r hmem
  rcases List.mem_map.mp hmem with ⟨cb, hcb, heq⟩
  injection heq with e1 _
  subst e1
  rcases List.mem_append.mp hcb with h1 | h2
  · exact hch h1
  · exact hty h2

def c8bus : MessageBus := subscribe (subscribe MessageBus.new "alice" 1) "bob" 2

def c8msg : AgentMessage :=
  { sender := "carol", recipient := "alice", kind := MsgKind.PlanRequestK }

def c8run : Handler → AgentMessage → Except Err Unit := fun _ _ => Except.ok ()

/-- Witness for C8: handler 2, subscribed only to channel `bob`, receives
nothing from a send addressed to `alice`. -/
theorem C8_send_routing_witness :
    send c8bus c8msg c8run = publish c8bus "alice" c8msg c8run ∧
    ∃ bus2 results, send c8bus c8msg c8run = Except.ok (bus2, results) ∧
      ∀ r, ((2 : Handler), r) ∉ results := by
  obtain ⟨heq, bus2, results, hok, _, hnone⟩ := C8_send_routing c8bus c8msg c8run
  exact ⟨heq, bus2, results, hok, fun r => hnone 2 (by decide) (by decide) r⟩

def c9msg : AgentMessage :=
  { sender := "agent", recipient := "codegen", kind := MsgKind.CodeArtifactK }

def c9run : Handler → AgentMessage → Except Err Unit := fun _ _ => Except.ok ()

/-- Claim C9 counterexample: `clear_history` is an operation the bus
exposes that removes history: after one publish the history is `[c9msg]`,
and `clear_history` returns a bus with empty history — neither unchanged
nor extended by exactly one appended message, so the earlier history is
not a prefix of the later one. -/
theorem C9_counterexample :
    ∃ bus2 results, publish MessageBus.new "codegen" c9msg c9run = Except.ok (bus2, results) ∧
      bus2.history = [c9msg] ∧
      (clear_history bus2).history = [] ∧
      ¬ ((clear_history bus2).history = bus2.history ∨
         ∃ m, (clear_history bus2).history = bus2.history ++ [m]) := by
  refine ⟨_, _, publish_eq MessageBus.new "codegen" c9msg c9run, rfl, rfl, ?_⟩
  rintro (h | ⟨m, hm⟩)
  · simp [clear_history, MessageBus.new] at h
  · simp [clear_history, MessageBus.new] at hm

/-- Claim C9 amended: every bus operation other than `clear_history`
either leaves the history unchanged (`subscribe`, `subscribe_type`,
`unsubscribe`) or appends exactly the published message at the end
(`publish`, `send`); `clear_history` resets the history to empty. -/
theorem C9_history_appended (bus : MessageBus) (channel : String) (cb : Handler)
    (t : TypeKey) (message : AgentMessage)
    (run : Handler → AgentMessage → Except Err Unit) :
    (subscribe bus channel cb).history = bus.history ∧
    (subscribe_type bus t cb).history = bus.history ∧
    (unsubscribe bus channel cb).history = bus.history ∧
    (∃ bus2 results, publish bus channel message run = Except.ok (bus2, results) ∧
      bus2.history = bus.history ++ [message]) ∧
    (∃ bus2 results, send bus message run = Except.ok (bus2, results) ∧
      bus2.history = bus.history ++ [message]) ∧
    (clear_history bus).history = [] := by
  refine ⟨rfl, rfl, ?_,
    ⟨_, _, publish_eq bus channel message run, rfl⟩,
    ⟨_, _, publish_eq bus message.recipient message run, rfl⟩, rfl⟩
  cases hfind : dictFind bus.subscribers channel with
  | none => simp [unsubscribe, hfind]
  | some subs =>
    by_cases h : cb ∈ subs
    · simp [unsubscribe, hfind, h]
    · simp [unsubscribe, hfind, h]

/-- Claim C10: duplicate subscriptions are counted, not collapsed: after
subscribing a handler twice to a channel a publish invokes it twice, and a
single `unsubscribe` removes exactly one registration, after which a
publish on that channel invokes it exactly once. -/
theorem C10_duplicate_subscriptions (channel : String) (cb : Handler)
    (message : AgentMessage) (run : Handler → AgentMessage → Except Err Unit) :
    (∃ bus2 results,
      publish (subscribe (subscribe MessageBus.new channel cb) channel cb)
        channel message run = Except.ok (bus2, results) ∧
      (results.filter (fun t => t.1 == cb)).length = 2) ∧
    (∃ bus2 results,
      publish (unsubscribe (subscribe (subscribe MessageBus.new channel cb) channel cb)
        channel cb) channel message run = Except.ok (bus2, results) ∧
      (results.filter (fun t => t.1 == cb)).length = 1) := by
  constructor
  · refine ⟨_, _, publish_eq _ channel message run, ?_⟩
    simp [subscribe, MessageBus.new, dictAppend, channel_handlers, type_handlers, dictFind]
  · refine ⟨_, _, publish_eq _ channel message run, ?_⟩
    simp [subscribe, unsubscribe, MessageBus.new, dictAppend, dictFind, dictSet,
          removeFirst, channel_handlers, type_handlers]

end Verifai
